import Mathlib

/-!
A shallow embedding of the presentation/frame-synchronization core of the
learn-vulkan repository (`swapchain.cpp` / `swapchain.hpp` and the frame loop
of `app.cpp`), together with theorems settling the specification's claims
about it.

Opaque Vulkan handles (images, image views, swapchain objects) are modelled
as natural numbers; `vk::Result` is modelled by the constructors the code
distinguishes plus a catch-all; throwing C++ code is modelled with
`Except String`. Device responses (capabilities queries, acquire/present
results, freshly created handles) are inputs of the modelled operations.
-/

namespace LearnVulkan

/-! ## Basic Vulkan-side data -/

abbrev Image := Nat
abbrev ImageView := Nat

structure Extent2D where
  width : Nat
  height : Nat
deriving DecidableEq

structure SurfaceCapabilitiesKHR where
  minImageCount : Nat
  maxImageCount : Nat
  currentExtent : Extent2D
  minImageExtent : Extent2D
  maxImageExtent : Extent2D
deriving DecidableEq

inductive Format where
  | eR8G8B8A8Srgb
  | eB8G8R8A8Srgb
  | otherFormat (code : Nat)
deriving DecidableEq

inductive ColorSpaceKHR where
  | eVkColorspaceSrgbNonlinear
  | otherColorSpace (code : Nat)
deriving DecidableEq

structure SurfaceFormatKHR where
  format : Format
  colorSpace : ColorSpaceKHR
deriving DecidableEq

inductive VkResult where
  | eSuccess
  | eSuboptimalKHR
  | eErrorOutOfDateKHR
  | otherResult (code : Int)
deriving DecidableEq

/-- `std::clamp(v, lo, hi)`: `v < lo ? lo : hi < v ? hi : v`. -/
def stdClamp (v lo hi : Nat) : Nat :=
  if v < lo then lo else if hi < v then hi else v

/-- `RenderTarget` (`render_target.hpp`): snapshot of the acquired image. -/
structure RenderTarget where
  image : Image
  image_view : ImageView
  extent : Extent2D
deriving DecidableEq

/-- The fields of `vk::ImageMemoryBarrier2` that `base_barrier` fills in
(the subresource range is a constant and is omitted). -/
structure ImageMemoryBarrier2 where
  image : Image
  srcQueueFamilyIndex : Nat
  dstQueueFamilyIndex : Nat
deriving DecidableEq

/-! ## swapchain.cpp: the anonymous-namespace helpers -/

/-- `constexpr std::uint32_t min_images_v{3};` -/
def min_images_v : Nat := 3

/-- `srgb_formats_v`: the format preference list. -/
def srgb_formats_v : List Format :=
  [Format.eR8G8B8A8Srgb, Format.eB8G8R8A8Srgb]

/-- The `is_match` lambda inside `get_surface_format`. -/
def is_match (desired : Format) (f : SurfaceFormatKHR) : Bool :=
  f.format == desired && f.colorSpace == ColorSpaceKHR.eVkColorspaceSrgbNonlinear

/-- `std::ranges::find_if(supported, is_match)`. -/
def find_format (desired : Format) (supported : List SurfaceFormatKHR) :
    Option SurfaceFormatKHR :=
  supported.find? (is_match desired)

/-- The `for (auto const desired : srgb_formats_v)` loop of
`get_surface_format`: try each preferred format in order. -/
def get_surface_format_loop :
    List Format → List SurfaceFormatKHR → Option SurfaceFormatKHR
  | [], _ => none
  | desired :: rest, supported =>
    match find_format desired supported with
    | some sf => some sf
    | none => get_surface_format_loop rest supported

/-- `get_surface_format`: first preferred sRGB format supported, else
`supported.front()`. Returns `none` exactly when `supported` is empty
(where the C++ `front()` would be undefined). -/
def get_surface_format (supported : List SurfaceFormatKHR) :
    Option SurfaceFormatKHR :=
  match get_surface_format_loop srgb_formats_v supported with
  | some sf => some sf
  | none => supported.head?

/-- `constexpr auto limitless_v = 0xffffffff;` -/
def limitless_v : Nat := 0xffffffff

/-- `get_image_extent`: the surface-mandated `currentExtent` if fixed, else
the requested size clamped per dimension. -/
def get_image_extent (capabilities : SurfaceCapabilitiesKHR)
    (size : Nat × Nat) : Extent2D :=
  if capabilities.currentExtent.width < limitless_v ∧
      capabilities.currentExtent.height < limitless_v then
    capabilities.currentExtent
  else
    { width := stdClamp size.1 capabilities.minImageExtent.width
        capabilities.maxImageExtent.width
      height := stdClamp size.2 capabilities.minImageExtent.height
        capabilities.maxImageExtent.height }

/-- `get_image_count`: clamp the target `min_images_v` into the surface's
image-count bounds, treating `max < min` as unbounded. -/
def get_image_count (capabilities : SurfaceCapabilitiesKHR) : Nat :=
  if capabilities.maxImageCount < capabilities.minImageCount then
    max min_images_v capabilities.minImageCount
  else
    stdClamp min_images_v capabilities.minImageCount capabilities.maxImageCount

/-- `needs_recreation`: `false` for success/suboptimal, `true` for
out-of-date, throws `"Swapchain Error"` otherwise. -/
def needs_recreation : VkResult → Except String Bool
  | VkResult.eSuccess => Except.ok false
  | VkResult.eSuboptimalKHR => Except.ok false
  | VkResult.eErrorOutOfDateKHR => Except.ok true
  | VkResult.otherResult _ => Except.error "Swapchain Error"

/-! ## The Swapchain state -/

/-- The mutable state of `class Swapchain` (`swapchain.hpp`): the create-info
fields the code reads back, the swapchain handle, the parallel image/view
sequences and the optional acquired index. `queue_family` is the borrowed
`m_gpu.queue_family`. -/
structure SwapchainState where
  surface_format : SurfaceFormatKHR
  imageExtent : Extent2D
  minImageCount : Nat
  queue_family : Nat
  swapchain : Option Nat
  images : List Image
  image_views : List ImageView
  image_index : Option Nat
deriving DecidableEq

/-- `get_size()`: the extent as a signed `ivec2`. -/
def SwapchainState.get_size (s : SwapchainState) : Int × Int :=
  ((s.imageExtent.width : Int), (s.imageExtent.height : Int))

/-- The device's responses consumed during one `recreate` call: the
capabilities query, the freshly created swapchain handle, the image list
reported by `getSwapchainImagesKHR`, and view creation
(`createImageViewUnique`, one view per image in order). -/
structure RecreateEnv where
  capabilities : SurfaceCapabilitiesKHR
  new_swapchain : Nat
  new_images : List Image
  create_view : Image → ImageView

namespace Swapchain

/-- `Swapchain::recreate(glm::ivec2 size)`: fails without side effects on a
non-positive dimension; otherwise recomputes extent and image count, waits
idle, rebuilds the swapchain object, clears the acquired index, and
repopulates the image and view sequences. -/
def recreate (s : SwapchainState) (env : RecreateEnv) (size : Int × Int) :
    Bool × SwapchainState :=
  if size.1 ≤ 0 ∨ size.2 ≤ 0 then (false, s)
  else
    (true,
      { s with
          imageExtent := get_image_extent env.capabilities
            (size.1.toNat, size.2.toNat)
          minImageCount := get_image_count env.capabilities
          swapchain := some env.new_swapchain
          image_index := none
          images := env.new_images
          image_views := env.new_images.map env.create_view })

/-- The `assert` in `recreate` after filling the create info: positive extent
and at least `min_images_v` images. -/
def recreate_assertion (capabilities : SurfaceCapabilitiesKHR)
    (size : Nat × Nat) : Prop :=
  0 < (get_image_extent capabilities size).width ∧
  0 < (get_image_extent capabilities size).height ∧
  min_images_v ≤ get_image_count capabilities

instance (capabilities : SurfaceCapabilitiesKHR) (size : Nat × Nat) :
    Decidable (recreate_assertion capabilities size) :=
  inferInstanceAs (Decidable (_ ∧ _ ∧ _))

/-- `Swapchain::acquire_next_image(to_signal)`: the backing
`acquireNextImageKHR` call's result and written index are inputs. Stale
surface yields `none` with the state untouched; a fatal result propagates
the `needs_recreation` exception; otherwise the index is recorded and a
`RenderTarget` snapshot built via `m_images.at` / `m_image_views.at`
(which throw when out of range). -/
def acquire_next_image (s : SwapchainState) (acquire_result : VkResult)
    (image_index : Nat) : Except String (Option RenderTarget) × SwapchainState :=
  match needs_recreation acquire_result with
  | Except.error e => (Except.error e, s)
  | Except.ok true => (Except.ok none, s)
  | Except.ok false =>
    let s' := { s with image_index := some image_index }
    match s.images.get? image_index, s.image_views.get? image_index with
    | some image, some image_view =>
      (Except.ok (some { image := image, image_view := image_view,
                         extent := s.imageExtent }), s')
    | _, _ => (Except.error "vector out of range", s')

/-- `Swapchain::base_barrier()`: reads `m_image_index.value()` (throws when
empty) and `m_images.at(...)`; fills image and the two queue-family
indices. -/
def base_barrier (s : SwapchainState) : Except String ImageMemoryBarrier2 :=
  match s.image_index with
  | none => Except.error "bad optional access"
  | some idx =>
    match s.images.get? idx with
    | none => Except.error "vector out of range"
    | some image =>
      Except.ok { image := image, srcQueueFamilyIndex := s.queue_family,
                  dstQueueFamilyIndex := s.queue_family }

/-- `Swapchain::present(queue, to_wait)`: reads `m_image_index.value()`
(throws when empty), performs the present call (result is an input), then
unconditionally resets the index, then returns `!needs_recreation(result)`
(which may throw, after the reset). -/
def present (s : SwapchainState) (present_result : VkResult) :
    Except String Bool × SwapchainState :=
  match s.image_index with
  | none => (Except.error "bad optional access", s)
  | some _ =>
    let s' := { s with image_index := none }
    match needs_recreation present_result with
    | Except.error e => (Except.error e, s')
    | Except.ok b => (Except.ok (!b), s')

end Swapchain

/-! ## app.cpp: the per-frame cycle

The frame loop of `App` (`main_loop` / `acquire_render_target` /
`submit_and_present`). A slot's render fence (`RenderSync::drawn`) is
modelled as a `Bool`: `true` means the fence is signalled or has a pending
submission that signals it before the 3-second `waitForFences` timeout (the
queue executes submissions in finite time), `false` means no submission will
signal it, so the wait times out. Fence operations are additionally recorded
as an event trace. -/

/-- `resource_buffering_v` (`resource_buffering.hpp`): number of virtual
frames. -/
def resource_buffering_v : Nat := 2

/-- One observable fence operation on a virtual-frame slot:
`waitForFences`, `resetFences`, or a queue submission that signals the
slot's fence on completion. -/
inductive FenceEvent where
  | wait (slot : Nat)
  | reset (slot : Nat)
  | submit (slot : Nat)
deriving DecidableEq

/-- The `App` state touched by the frame cycle: the virtual-frame index, the
per-slot render fences, the swapchain, the cached framebuffer size and the
acquired render target. -/
structure AppState where
  frame_index : Nat
  drawn_fences : List Bool
  swapchain : SwapchainState
  framebuffer_size : Int × Int
  render_target : Option RenderTarget
deriving DecidableEq

/-- The environment's inputs to one frame cycle: the window's framebuffer
size, the results of the backing acquire and present calls, the image index
the acquire call writes, and the device responses should `recreate` run. -/
structure CycleInput where
  fb_size : Int × Int
  acquire_result : VkResult
  acquire_index : Nat
  present_result : VkResult
  recreate_env : RecreateEnv

namespace App

/-- `App::acquire_render_target()`: read and cache the framebuffer size,
skip when non-positive; wait on the slot's fence (timeout throws); acquire;
on stale surface recreate and skip; only after a successful acquire reset
the fence and store the render target. Returns the fence events performed,
the new state, and the `bool` result (or the propagated exception). -/
def acquire_render_target (s : AppState) (inp : CycleInput) :
    List FenceEvent × AppState × Except String Bool :=
  let s1 : AppState := { s with framebuffer_size := inp.fb_size }
  if inp.fb_size.1 ≤ 0 ∨ inp.fb_size.2 ≤ 0 then ([], s1, Except.ok false)
  else
    match s1.drawn_fences.get? s1.frame_index with
    | none => ([], s1, Except.error "array out of range")
    | some signaled =>
      if signaled then
        match Swapchain.acquire_next_image s1.swapchain inp.acquire_result
            inp.acquire_index with
        | (Except.error e, sw) =>
          ([FenceEvent.wait s1.frame_index],
           { s1 with swapchain := sw }, Except.error e)
        | (Except.ok none, sw) =>
          ([FenceEvent.wait s1.frame_index],
           { s1 with
               swapchain := (Swapchain.recreate sw inp.recreate_env
                 inp.fb_size).2
               render_target := none },
           Except.ok false)
        | (Except.ok (some rt), sw) =>
          ([FenceEvent.wait s1.frame_index, FenceEvent.reset s1.frame_index],
           { s1 with
               swapchain := sw
               render_target := some rt
               drawn_fences := s1.drawn_fences.set s1.frame_index false },
           Except.ok true)
      else
        ([FenceEvent.wait s1.frame_index], s1,
         Except.error "Failed to wait for Render Fence")

/-- `App::submit_and_present()`: end recording and submit with the slot's
fence as completion signal; advance the frame index modulo
`resource_buffering_v` and drop the render target before presenting; then
present, and recreate when the framebuffer size changed or the surface is
out of date. -/
def submit_and_present (s : AppState) (inp : CycleInput) :
    List FenceEvent × AppState × Except String Unit :=
  match s.drawn_fences.get? s.frame_index with
  | none => ([], s, Except.error "array out of range")
  | some _ =>
    let k := s.frame_index
    let s2 : AppState := { s with drawn_fences := s.drawn_fences.set k true }
    let s3 : AppState :=
      { s2 with frame_index := (k + 1) % resource_buffering_v
                render_target := none }
    let fb_size_changed : Bool :=
      decide (s3.framebuffer_size ≠ s3.swapchain.get_size)
    match Swapchain.present s3.swapchain inp.present_result with
    | (Except.error e, sw) =>
      ([FenceEvent.submit k], { s3 with swapchain := sw }, Except.error e)
    | (Except.ok okb, sw) =>
      if fb_size_changed || !okb then
        ([FenceEvent.submit k],
         { s3 with swapchain := (Swapchain.recreate sw inp.recreate_env
             s3.framebuffer_size).2 },
         Except.ok ())
      else
        ([FenceEvent.submit k], { s3 with swapchain := sw }, Except.ok ())

/-- One iteration of `App::main_loop()`: `acquire_render_target`, then (when
it returns `true`) command recording — whose only modelled effect is the
`base_barrier` query made by `transition_for_render` and
`transition_for_present` — then `submit_and_present`. -/
def cycle (s : AppState) (inp : CycleInput) :
    List FenceEvent × AppState × Except String Unit :=
  match acquire_render_target s inp with
  | (evs, s1, Except.error e) => (evs, s1, Except.error e)
  | (evs, s1, Except.ok false) => (evs, s1, Except.ok ())
  | (evs, s1, Except.ok true) =>
    match Swapchain.base_barrier s1.swapchain with
    | Except.error e => (evs, s1, Except.error e)
    | Except.ok _ =>
      match submit_and_present s1 inp with
      | (evs2, s2, r) => (evs ++ evs2, s2, r)

/-- Run a sequence of frame cycles, stopping at the first uncaught
exception, and collect the full fence-event trace. -/
def run_cycles (s : AppState) :
    List CycleInput → List FenceEvent × AppState × Except String Unit
  | [] => ([], s, Except.ok ())
  | inp :: rest =>
    match cycle s inp with
    | (evs, s', Except.error e) => (evs, s', Except.error e)
    | (evs, s', Except.ok _) =>
      match run_cycles s' rest with
      | (evs', s'', r) => (evs ++ evs', s'', r)

end App

/-- Scan an event trace checking slot alternation for slot `k`: after a
`reset k` (`armed := true`), another `reset k` before an intervening
`submit k` is a violation. -/
def altScan (k : Nat) : Bool → List FenceEvent → Bool
  | _, [] => true
  | armed, FenceEvent.wait _ :: rest => altScan k armed rest
  | armed, FenceEvent.reset j :: rest =>
    if j = k then (if armed then false else altScan k true rest)
    else altScan k armed rest
  | armed, FenceEvent.submit j :: rest =>
    if j = k then altScan k false rest else altScan k armed rest

/-! ## Sample values used by the witnesses -/

/-- A supported sRGB surface format. -/
def sample_format : SurfaceFormatKHR :=
  { format := Format.eR8G8B8A8Srgb,
    colorSpace := ColorSpaceKHR.eVkColorspaceSrgbNonlinear }

/-- Scenario A capabilities: free extent, generous image-count bounds. -/
def caps_scenario_a : SurfaceCapabilitiesKHR :=
  { minImageCount := 3, maxImageCount := 8,
    currentExtent := { width := limitless_v, height := limitless_v },
    minImageExtent := { width := 1, height := 1 },
    maxImageExtent := { width := limitless_v, height := limitless_v } }

/-- Scenario B capabilities: surface mandates a fixed 1920x1080 extent. -/
def caps_scenario_b : SurfaceCapabilitiesKHR :=
  { minImageCount := 3, maxImageCount := 8,
    currentExtent := { width := 1920, height := 1080 },
    minImageExtent := { width := 1, height := 1 },
    maxImageExtent := { width := 4096, height := 4096 } }

/-- Scenario C capabilities: image count bounded to [1, 2]. -/
def caps_scenario_c : SurfaceCapabilitiesKHR :=
  { minImageCount := 1, maxImageCount := 2,
    currentExtent := { width := limitless_v, height := limitless_v },
    minImageExtent := { width := 1, height := 1 },
    maxImageExtent := { width := 4096, height := 4096 } }

/-- A swapchain state with three images and no acquired index. -/
def sample_swapchain : SwapchainState :=
  { surface_format := sample_format,
    imageExtent := { width := 800, height := 600 },
    minImageCount := 3, queue_family := 0, swapchain := some 1,
    images := [10, 11, 12], image_views := [110, 111, 112],
    image_index := none }

/-- Device responses for a recreate against scenario A capabilities. -/
def sample_env : RecreateEnv :=
  { capabilities := caps_scenario_a, new_swapchain := 2,
    new_images := [20, 21, 22], create_view := fun i => i + 100 }

/-- Device responses for a recreate against scenario C capabilities. -/
def env_scenario_c : RecreateEnv :=
  { capabilities := caps_scenario_c, new_swapchain := 2,
    new_images := [20, 21], create_view := fun i => i + 100 }

/-! ## Claims about the Swapchain component -/

/-- C5: for every size whose width or height is non-positive (including
`(0,h)`, `(w,0)` and `(-1,-1)`), `Swapchain::recreate` returns failure and
mutates no state: extent, image sequence, view sequence, swapchain object
and any acquired index are left exactly as they were. -/
theorem recreate_nonpositive_size_no_mutation (s : SwapchainState)
    (env : RecreateEnv) (size : Int × Int) (h : size.1 ≤ 0 ∨ size.2 ≤ 0) :
    Swapchain.recreate s env size = (false, s) := by
  unfold Swapchain.recreate
  rw [if_pos h]

/-- Witness for C5 at the three boundary sizes named by the spec. -/
theorem recreate_nonpositive_size_no_mutation_witness :
    Swapchain.recreate sample_swapchain sample_env (0, 600) =
      (false, sample_swapchain) ∧
    Swapchain.recreate sample_swapchain sample_env (800, 0) =
      (false, sample_swapchain) ∧
    Swapchain.recreate sample_swapchain sample_env (-1, -1) =
      (false, sample_swapchain) :=
  ⟨recreate_nonpositive_size_no_mutation _ _ _ (Or.inl (by decide)),
   recreate_nonpositive_size_no_mutation _ _ _ (Or.inr (by decide)),
   recreate_nonpositive_size_no_mutation _ _ _ (Or.inl (by decide))⟩

/-- C6: the image count chosen by recreate is the target 3 clamped into
`[minImageCount, maxImageCount]` when the bounds are ordered, and
`max 3 minImageCount` when the surface reports `max < min` (unbounded). -/
theorem get_image_count_clamps_target (capabilities : SurfaceCapabilitiesKHR) :
    (capabilities.minImageCount ≤ capabilities.maxImageCount →
      get_image_count capabilities =
        min (max min_images_v capabilities.minImageCount)
          capabilities.maxImageCount) ∧
    (capabilities.maxImageCount < capabilities.minImageCount →
      get_image_count capabilities =
        max min_images_v capabilities.minImageCount) := by
  unfold get_image_count stdClamp min_images_v
  constructor <;> intro h
  · rw [if_neg (by omega)]
    split_ifs <;> omega
  · rw [if_pos h]

/-- Witness for C6, scenario C: bounds [1, 2] give image count 2. -/
theorem get_image_count_clamps_target_witness :
    get_image_count caps_scenario_c =
      min (max min_images_v caps_scenario_c.minImageCount)
        caps_scenario_c.maxImageCount ∧
    get_image_count caps_scenario_c = 2 :=
  ⟨(get_image_count_clamps_target caps_scenario_c).1 (by decide), by decide⟩

/-- C7 counterexample: with capabilities reporting image-count bounds
[1, 2], `recreate` succeeds but establishes a minimum image count of 2,
below 3, and the code's own assertion predicate is violated. -/
theorem recreate_min_image_count_counterexample :
    (Swapchain.recreate sample_swapchain env_scenario_c (100, 100)).1 =
      true ∧
    (Swapchain.recreate sample_swapchain env_scenario_c
      (100, 100)).2.minImageCount = 2 ∧
    ¬ min_images_v ≤ (Swapchain.recreate sample_swapchain env_scenario_c
      (100, 100)).2.minImageCount ∧
    ¬ Swapchain.recreate_assertion caps_scenario_c (100, 100) :=
  ⟨rfl, rfl, by decide, by decide⟩

/-- C7 (amended): whenever the surface reports `maxImageCount ≥ 3`, or
reports `max < min` (unbounded), every successful recreate establishes a
minimum image count of at least 3. -/
theorem recreate_min_image_count_amended (s : SwapchainState)
    (env : RecreateEnv) (size : Int × Int)
    (hsz : 0 < size.1 ∧ 0 < size.2)
    (hcap : min_images_v ≤ env.capabilities.maxImageCount ∨
      env.capabilities.maxImageCount < env.capabilities.minImageCount) :
    (Swapchain.recreate s env size).1 = true ∧
    min_images_v ≤ (Swapchain.recreate s env size).2.minImageCount := by
  unfold Swapchain.recreate
  rw [if_neg (by omega)]
  refine ⟨rfl, ?_⟩
  show min_images_v ≤ get_image_count env.capabilities
  unfold get_image_count stdClamp min_images_v at *
  split_ifs <;> omega

/-- Witness for C7's amended claim. -/
theorem recreate_min_image_count_amended_witness :
    (Swapchain.recreate sample_swapchain sample_env (800, 600)).1 = true ∧
    min_images_v ≤
      (Swapchain.recreate sample_swapchain sample_env
        (800, 600)).2.minImageCount :=
  recreate_min_image_count_amended sample_swapchain sample_env (800, 600)
    (by decide) (Or.inl (by decide))

/-- `std::clamp` into an ordered interval is `min (max v lo) hi`. -/
theorem stdClamp_eq_min_max (v lo hi : Nat) (h : lo ≤ hi) :
    stdClamp v lo hi = min (max v lo) hi := by
  unfold stdClamp
  split_ifs <;> omega

/-- C8: the extent chosen by recreate equals the surface's `currentExtent`
whenever both its dimensions are below `0xFFFFFFFF`, and otherwise equals
the requested size with each dimension clamped into
`[minImageExtent, maxImageExtent]`. -/
theorem get_image_extent_spec (capabilities : SurfaceCapabilitiesKHR)
    (size : Nat × Nat) :
    (capabilities.currentExtent.width < limitless_v ∧
        capabilities.currentExtent.height < limitless_v →
      get_image_extent capabilities size = capabilities.currentExtent) ∧
    (¬ (capabilities.currentExtent.width < limitless_v ∧
        capabilities.currentExtent.height < limitless_v) →
      capabilities.minImageExtent.width ≤ capabilities.maxImageExtent.width →
      capabilities.minImageExtent.height ≤
        capabilities.maxImageExtent.height →
      get_image_extent capabilities size =
        { width := min (max size.1 capabilities.minImageExtent.width)
            capabilities.maxImageExtent.width,
          height := min (max size.2 capabilities.minImageExtent.height)
            capabilities.maxImageExtent.height }) := by
  constructor
  · intro h
    unfold get_image_extent
    rw [if_pos h]
  · intro h hw hh
    unfold get_image_extent
    rw [if_neg h, stdClamp_eq_min_max _ _ _ hw, stdClamp_eq_min_max _ _ _ hh]

/-- Witness for C8: scenario A (free surface, request (800,600) yields
(800,600)) and scenario B (fixed current extent (1920,1080) wins over
request (300,300)). -/
theorem get_image_extent_spec_witness :
    get_image_extent caps_scenario_a (800, 600) =
      { width := min (max 800 caps_scenario_a.minImageExtent.width)
          caps_scenario_a.maxImageExtent.width,
        height := min (max 600 caps_scenario_a.minImageExtent.height)
          caps_scenario_a.maxImageExtent.height } ∧
    get_image_extent caps_scenario_a (800, 600) =
      { width := 800, height := 600 } ∧
    get_image_extent caps_scenario_b (300, 300) =
      caps_scenario_b.currentExtent ∧
    get_image_extent caps_scenario_b (300, 300) =
      { width := 1920, height := 1080 } :=
  ⟨(get_image_extent_spec caps_scenario_a (800, 600)).2 (by decide)
      (by decide) (by decide),
   by decide,
   (get_image_extent_spec caps_scenario_b (300, 300)).1 (by decide),
   by decide⟩

/-- C9: for every non-empty supported list, construction selects the first
preference-list format (R8G8B8A8 sRGB, then B8G8R8A8 sRGB, paired with the
sRGB-nonlinear color space) that occurs in the supported list, and falls
back to the first supported entry when no preferred format matches; the
selected format always comes from the supported list. -/
theorem get_surface_format_spec (x : SurfaceFormatKHR)
    (xs : List SurfaceFormatKHR) :
    get_surface_format (x :: xs) =
      some (((x :: xs).find? (is_match Format.eR8G8B8A8Srgb)).getD
        (((x :: xs).find? (is_match Format.eB8G8R8A8Srgb)).getD x)) ∧
    ∃ sf, get_surface_format (x :: xs) = some sf ∧ sf ∈ x :: xs := by
  have hmain : get_surface_format (x :: xs) =
      some (((x :: xs).find? (is_match Format.eR8G8B8A8Srgb)).getD
        (((x :: xs).find? (is_match Format.eB8G8R8A8Srgb)).getD x)) := by
    unfold get_surface_format srgb_formats_v
    cases h1 : (x :: xs).find? (is_match Format.eR8G8B8A8Srgb) <;>
      cases h2 : (x :: xs).find? (is_match Format.eB8G8R8A8Srgb) <;>
      simp [get_surface_format_loop, find_format, h1, h2]
  have hm : (((x :: xs).find? (is_match Format.eR8G8B8A8Srgb)).getD
      (((x :: xs).find? (is_match Format.eB8G8R8A8Srgb)).getD x)) ∈
        x :: xs := by
    cases h1 : (x :: xs).find? (is_match Format.eR8G8B8A8Srgb) with
    | some sf1 => simpa using List.mem_of_find?_eq_some h1
    | none =>
      cases h2 : (x :: xs).find? (is_match Format.eB8G8R8A8Srgb) with
      | some sf2 => simpa using List.mem_of_find?_eq_some h2
      | none => simp
  exact ⟨hmain, _, hmain, hm⟩

/-- C2: with no acquired index outstanding, `acquire_next_image` returns
`none` with the state untouched exactly when the backing call reports
out-of-date; any result outside {success, suboptimal, out-of-date} raises
the fatal `"Swapchain Error"`; and on success (or suboptimal) the returned
index is recorded and a `RenderTarget` built from the image and view at
that index and the current extent is returned. -/
theorem acquire_next_image_spec (s : SwapchainState) (result : VkResult)
    (idx : Nat) (_hno : s.image_index = none)
    (himg : idx < s.images.length) (hview : idx < s.image_views.length) :
    ((Swapchain.acquire_next_image s result idx).1 = Except.ok none ↔
      result = VkResult.eErrorOutOfDateKHR) ∧
    (result = VkResult.eErrorOutOfDateKHR →
      (Swapchain.acquire_next_image s result idx).2 = s) ∧
    (∀ c, result = VkResult.otherResult c →
      (Swapchain.acquire_next_image s result idx).1 =
        Except.error "Swapchain Error") ∧
    (result = VkResult.eSuccess ∨ result = VkResult.eSuboptimalKHR →
      (Swapchain.acquire_next_image s result idx).2.image_index =
        some idx ∧
      (Swapchain.acquire_next_image s result idx).1 =
        Except.ok (some { image := s.images.get ⟨idx, himg⟩,
                          image_view := s.image_views.get ⟨idx, hview⟩,
                          extent := s.imageExtent })) := by
  have h1 : s.images[idx]? = some s.images[idx] :=
    List.getElem?_eq_getElem himg
  have h2 : s.image_views[idx]? = some s.image_views[idx] :=
    List.getElem?_eq_getElem hview
  cases result <;>
    simp [Swapchain.acquire_next_image, needs_recreation, h1, h2]

/-- Witness for C2: success records index 1 and snapshots image 11 / view
111; out-of-date yields `none` and leaves the state untouched. -/
theorem acquire_next_image_spec_witness :
    ((Swapchain.acquire_next_image sample_swapchain VkResult.eSuccess
        1).1 = Except.ok none ↔ VkResult.eSuccess =
        VkResult.eErrorOutOfDateKHR) ∧
    (Swapchain.acquire_next_image sample_swapchain VkResult.eSuccess
        1).2.image_index = some 1 ∧
    (Swapchain.acquire_next_image sample_swapchain
        VkResult.eErrorOutOfDateKHR 1).1 = Except.ok none ∧
    (Swapchain.acquire_next_image sample_swapchain
        VkResult.eErrorOutOfDateKHR 1).2 = sample_swapchain :=
  ⟨(acquire_next_image_spec sample_swapchain VkResult.eSuccess 1 rfl
      (by decide) (by decide)).1,
   ((acquire_next_image_spec sample_swapchain VkResult.eSuccess 1 rfl
      (by decide) (by decide)).2.2.2 (Or.inl rfl)).1,
   ((acquire_next_image_spec sample_swapchain VkResult.eErrorOutOfDateKHR 1
      rfl (by decide) (by decide)).1).mpr rfl,
   (acquire_next_image_spec sample_swapchain VkResult.eErrorOutOfDateKHR 1
      rfl (by decide) (by decide)).2.1 rfl⟩

/-- C3: with an acquired index outstanding, `present` clears the index
regardless of outcome (including the fatal-error path), returns `false`
exactly when the backing call reports out-of-date, returns `true` on
success or suboptimal, and raises the fatal `"Swapchain Error"` for any
other result. -/
theorem present_spec (s : SwapchainState) (result : VkResult) (idx : Nat)
    (h : s.image_index = some idx) :
    (Swapchain.present s result).2.image_index = none ∧
    ((Swapchain.present s result).1 = Except.ok false ↔
      result = VkResult.eErrorOutOfDateKHR) ∧
    (result = VkResult.eSuccess ∨ result = VkResult.eSuboptimalKHR →
      (Swapchain.present s result).1 = Except.ok true) ∧
    (∀ c, result = VkResult.otherResult c →
      (Swapchain.present s result).1 = Except.error "Swapchain Error") := by
  cases result <;> simp [Swapchain.present, needs_recreation, h]

/-- Witness for C3: the sample swapchain with index 1 outstanding, at a
fatal result (index still cleared) and at out-of-date (returns false). -/
theorem present_spec_witness :
    (Swapchain.present { sample_swapchain with image_index := some 1 }
      (VkResult.otherResult (-4))).2.image_index = none ∧
    ((Swapchain.present { sample_swapchain with image_index := some 1 }
      VkResult.eErrorOutOfDateKHR).1 = Except.ok false ↔
      VkResult.eErrorOutOfDateKHR = VkResult.eErrorOutOfDateKHR) ∧
    (Swapchain.present { sample_swapchain with image_index := some 1 }
      (VkResult.otherResult (-4))).1 = Except.error "Swapchain Error" :=
  ⟨(present_spec _ (VkResult.otherResult (-4)) 1 rfl).1,
   (present_spec _ VkResult.eErrorOutOfDateKHR 1 rfl).2.1,
   (present_spec _ (VkResult.otherResult (-4)) 1 rfl).2.2.2 (-4) rfl⟩

/-- C10: `base_barrier` fails with an error whenever no index is acquired —
in particular on the state produced by any successful `recreate` and on the
state produced by any `present` call; with an index outstanding (and in
range) it returns a barrier whose image is the acquired image and whose
source and destination queue-family indices are both the context's queue
family. -/
theorem base_barrier_spec (s : SwapchainState) :
    (s.image_index = none →
      ∃ e, Swapchain.base_barrier s = Except.error e) ∧
    (∀ idx (hlt : idx < s.images.length), s.image_index = some idx →
      Swapchain.base_barrier s =
        Except.ok { image := s.images.get ⟨idx, hlt⟩,
                    srcQueueFamilyIndex := s.queue_family,
                    dstQueueFamilyIndex := s.queue_family }) ∧
    (∀ env size, (Swapchain.recreate s env size).1 = true →
      ∃ e, Swapchain.base_barrier (Swapchain.recreate s env size).2 =
        Except.error e) ∧
    (∀ result, ∃ e,
      Swapchain.base_barrier (Swapchain.present s result).2 =
        Except.error e) := by
  refine ⟨?_, ?_, ?_, ?_⟩
  · intro h
    exact ⟨"bad optional access", by simp [Swapchain.base_barrier, h]⟩
  · intro idx hlt h
    have h1 : s.images[idx]? = some s.images[idx] :=
      List.getElem?_eq_getElem hlt
    simp [Swapchain.base_barrier, h, h1]
  · intro env size hok
    unfold Swapchain.recreate at hok ⊢
    by_cases hsz : size.1 ≤ 0 ∨ size.2 ≤ 0
    · rw [if_pos hsz] at hok
      simp at hok
    · rw [if_neg hsz]
      exact ⟨"bad optional access", by simp [Swapchain.base_barrier]⟩
  · intro result
    refine ⟨"bad optional access", ?_⟩
    unfold Swapchain.present
    cases h : s.image_index with
    | none => simp [h, Swapchain.base_barrier]
    | some idx =>
      simp only [h]
      cases needs_recreation result <;> simp [Swapchain.base_barrier]

/-- Witness for C10: no-index state errors; index-1 state yields the
barrier for image 11 with queue family 0 on both sides; the state after a
successful recreate errors. -/
theorem base_barrier_spec_witness :
    (∃ e, Swapchain.base_barrier sample_swapchain = Except.error e) ∧
    Swapchain.base_barrier { sample_swapchain with image_index := some 1 } =
      Except.ok { image := 11, srcQueueFamilyIndex := 0,
                  dstQueueFamilyIndex := 0 } ∧
    (∃ e, Swapchain.base_barrier
      (Swapchain.recreate sample_swapchain sample_env (800, 600)).2 =
        Except.error e) :=
  ⟨(base_barrier_spec sample_swapchain).1 rfl,
   (base_barrier_spec { sample_swapchain with image_index := some 1 }).2.1
     1 (by decide) rfl,
   (base_barrier_spec sample_swapchain).2.2.1 sample_env (800, 600) rfl⟩

/-! ## Claims about the frame cycle -/

theorem acquire_preserves_frame_index (s : AppState) (inp : CycleInput) :
    (App.acquire_render_target s inp).2.1.frame_index = s.frame_index := by
  unfold App.acquire_render_target
  dsimp only
  split
  · rfl
  · split
    · rfl
    · split
      · split
        · rfl
        · rfl
        · rfl
      · rfl

theorem acquire_events_shape (s : AppState) (inp : CycleInput) :
    ((App.acquire_render_target s inp).1 = [] ∧
      (App.acquire_render_target s inp).2.2 ≠ Except.ok true) ∨
    ((App.acquire_render_target s inp).1 =
        [FenceEvent.wait s.frame_index] ∧
      (App.acquire_render_target s inp).2.2 ≠ Except.ok true) ∨
    ((App.acquire_render_target s inp).1 =
        [FenceEvent.wait s.frame_index, FenceEvent.reset s.frame_index] ∧
      (App.acquire_render_target s inp).2.2 = Except.ok true) := by
  unfold App.acquire_render_target
  dsimp only
  split
  · exact Or.inl ⟨rfl, by simp⟩
  · split
    · exact Or.inl ⟨rfl, by simp⟩
    · split
      · split
        · exact Or.inr (Or.inl ⟨rfl, by simp⟩)
        · exact Or.inr (Or.inl ⟨rfl, by simp⟩)
        · exact Or.inr (Or.inr ⟨rfl, rfl⟩)
      · exact Or.inr (Or.inl ⟨rfl, by simp⟩)

theorem submit_events_shape (s : AppState) (inp : CycleInput) :
    ((App.submit_and_present s inp).1 = [] ∧
      (App.submit_and_present s inp).2.2 ≠ Except.ok ()) ∨
    (App.submit_and_present s inp).1 = [FenceEvent.submit s.frame_index] := by
  unfold App.submit_and_present
  dsimp only
  split
  · exact Or.inl ⟨rfl, by simp⟩
  · split
    · exact Or.inr rfl
    · split
      · exact Or.inr rfl
      · exact Or.inr rfl

theorem cycle_shape (s : AppState) (inp : CycleInput) :
    (App.cycle s inp).1 = [] ∨
    (App.cycle s inp).1 = [FenceEvent.wait s.frame_index] ∨
    (App.cycle s inp).1 =
      [FenceEvent.wait s.frame_index, FenceEvent.reset s.frame_index,
       FenceEvent.submit s.frame_index] ∨
    ((App.cycle s inp).1 =
        [FenceEvent.wait s.frame_index, FenceEvent.reset s.frame_index] ∧
      (App.cycle s inp).2.2 ≠ Except.ok ()) := by
  have hfi := acquire_preserves_frame_index s inp
  rcases hacq : App.acquire_render_target s inp with ⟨evs, s1, r⟩
  rw [hacq] at hfi
  have hsh := acquire_events_shape s inp
  rw [hacq] at hsh
  simp only at hsh hfi
  cases r with
  | error e =>
    rcases hsh with ⟨h1, _⟩ | ⟨h1, _⟩ | ⟨_, h2⟩
    · exact Or.inl (by simp [App.cycle, hacq, h1])
    · exact Or.inr (Or.inl (by simp [App.cycle, hacq, h1]))
    · exact absurd h2 (by simp)
  | ok b =>
    cases b with
    | false =>
      rcases hsh with ⟨h1, _⟩ | ⟨h1, _⟩ | ⟨_, h2⟩
      · exact Or.inl (by simp [App.cycle, hacq, h1])
      · exact Or.inr (Or.inl (by simp [App.cycle, hacq, h1]))
      · exact absurd h2 (by simp)
    | true =>
      rcases hsh with ⟨_, h2⟩ | ⟨_, h2⟩ | ⟨h1, _⟩
      · exact absurd rfl h2
      · exact absurd rfl h2
      · cases hb : Swapchain.base_barrier s1.swapchain with
        | error e =>
          refine Or.inr (Or.inr (Or.inr ⟨?_, ?_⟩)) <;>
            simp [App.cycle, hacq, hb, h1]
        | ok bar =>
          have hsub := submit_events_shape s1 inp
          rcases hs : App.submit_and_present s1 inp with ⟨evs2, s2, r2⟩
          rw [hs] at hsub
          simp only at hsub
          rcases hsub with ⟨h3, h4⟩ | h3
          · refine Or.inr (Or.inr (Or.inr ⟨?_, ?_⟩)) <;>
              simp [App.cycle, hacq, hb, hs, h1, h3]
            intro hcon
            exact h4 hcon
          · refine Or.inr (Or.inr (Or.inl ?_))
            rw [hfi] at h3
            simp [App.cycle, hacq, hb, hs, h1, h3]

theorem cycle_ok_altScan (s : AppState) (inp : CycleInput) (k : Nat)
    (rest : List FenceEvent) (h : (App.cycle s inp).2.2 = Except.ok ()) :
    altScan k false ((App.cycle s inp).1 ++ rest) = altScan k false rest := by
  rcases cycle_shape s inp with h1 | h1 | h1 | ⟨h1, h2⟩
  · rw [h1]
    rfl
  · rw [h1]
    rfl
  · rw [h1]
    by_cases hjk : s.frame_index = k <;> simp [altScan, hjk]
  · exact absurd h h2

theorem cycle_altScan_closed (s : AppState) (inp : CycleInput) (k : Nat) :
    altScan k false (App.cycle s inp).1 = true := by
  rcases cycle_shape s inp with h1 | h1 | h1 | ⟨h1, _⟩ <;> rw [h1] <;>
    by_cases hjk : s.frame_index = k <;> simp [altScan, hjk]

theorem run_cycles_altScan (inputs : List CycleInput) (s : AppState)
    (k : Nat) : altScan k false (App.run_cycles s inputs).1 = true := by
  induction inputs generalizing s with
  | nil => rfl
  | cons inp rest ih =>
    rcases hc : App.cycle s inp with ⟨evs, s', r⟩
    cases r with
    | error e =>
      have h2 := cycle_altScan_closed s inp k
      rw [hc] at h2
      simp only [App.run_cycles, hc]
      exact h2
    | ok u =>
      cases u
      have h1 := cycle_ok_altScan s inp k (App.run_cycles s' rest).1
        (by rw [hc])
      rw [hc] at h1
      simp only [App.run_cycles, hc]
      simp only at h1 ⊢
      rw [h1]
      exact ih s'

/-- C1: slot alternation. Over every sequence of frame cycles, the full
fence-event trace never resets a slot's fence twice without an intervening
submission signalling that fence; and on every early exit (non-positive
framebuffer size, or acquire reporting the surface out of date) the cycle
completes normally without resetting any fence, leaving every slot's fence
state unchanged. -/
theorem slot_alternation :
    (∀ (s : AppState) (inputs : List CycleInput) (k : Nat),
      altScan k false (App.run_cycles s inputs).1 = true) ∧
    (∀ (s : AppState) (inp : CycleInput),
      (inp.fb_size.1 ≤ 0 ∨ inp.fb_size.2 ≤ 0) ∨
        (s.drawn_fences.get? s.frame_index = some true ∧
          inp.acquire_result = VkResult.eErrorOutOfDateKHR) →
      (App.cycle s inp).2.1.drawn_fences = s.drawn_fences ∧
      (∀ j, FenceEvent.reset j ∉ (App.cycle s inp).1) ∧
      (App.cycle s inp).2.2 = Except.ok ()) := by
  refine ⟨fun s inputs k => run_cycles_altScan inputs s k, fun s inp h => ?_⟩
  by_cases hfb : inp.fb_size.1 ≤ 0 ∨ inp.fb_size.2 ≤ 0
  · refine ⟨?_, ?_, ?_⟩ <;>
      simp [App.cycle, App.acquire_render_target, if_pos hfb]
  · rcases h with h | ⟨hf, hav⟩
    · exact absurd h hfb
    · have hf' : s.drawn_fences[s.frame_index]? = some true := by
        simpa using hf
      refine ⟨?_, ?_, ?_⟩ <;>
        simp [App.cycle, App.acquire_render_target, if_neg hfb, hf', hav,
          Swapchain.acquire_next_image, needs_recreation]

/-- An app state at frame 0 with both render fences signalled. -/
def sample_app : AppState :=
  { frame_index := 0, drawn_fences := [true, true],
    swapchain := sample_swapchain, framebuffer_size := (800, 600),
    render_target := none }

/-- A cycle input for a fully successful frame. -/
def input_success : CycleInput :=
  { fb_size := (800, 600), acquire_result := VkResult.eSuccess,
    acquire_index := 1, present_result := VkResult.eSuccess,
    recreate_env := sample_env }

/-- A cycle input whose acquire call reports the surface out of date. -/
def input_stale : CycleInput :=
  { fb_size := (800, 600), acquire_result := VkResult.eErrorOutOfDateKHR,
    acquire_index := 0, present_result := VkResult.eSuccess,
    recreate_env := sample_env }

/-- Witness for C1: a concrete two-cycle trace satisfies alternation, and a
concrete out-of-date cycle exits early with fences untouched. -/
theorem slot_alternation_witness :
    altScan 0 false
      (App.run_cycles sample_app [input_success, input_success]).1 = true ∧
    (App.cycle sample_app input_stale).2.1.drawn_fences = [true, true] :=
  ⟨slot_alternation.1 sample_app [input_success, input_success] 0,
   (slot_alternation.2 sample_app input_stale
      (Or.inr ⟨by decide, by decide⟩)).1⟩

/-- C4: round trip. A full successful frame cycle (positive framebuffer
size, signalled fence, successful acquire of an in-range index) with the
repository's N = 2 virtual-frame slots completes, advances the frame/slot
index by exactly 1 modulo 2 and leaves no acquired index (and no render
target) outstanding — for every non-fatal present result, including the
out-of-date failure; and even a fatal present result, which aborts the
cycle, occurs after the advance, so the index is advanced regardless. -/
theorem full_cycle_round_trip (s : AppState) (inp : CycleInput)
    (hfb : 0 < inp.fb_size.1 ∧ 0 < inp.fb_size.2)
    (hfence : s.drawn_fences.get? s.frame_index = some true)
    (hacq : needs_recreation inp.acquire_result = Except.ok false)
    (himg : inp.acquire_index < s.swapchain.images.length)
    (hview : inp.acquire_index < s.swapchain.image_views.length) :
    (∀ b, needs_recreation inp.present_result = Except.ok b →
      (App.cycle s inp).2.2 = Except.ok () ∧
      (App.cycle s inp).2.1.frame_index = (s.frame_index + 1) % 2 ∧
      (App.cycle s inp).2.1.swapchain.image_index = none ∧
      (App.cycle s inp).2.1.render_target = none) ∧
    (∀ c, inp.present_result = VkResult.otherResult c →
      (∃ e, (App.cycle s inp).2.2 = Except.error e) ∧
      (App.cycle s inp).2.1.frame_index = (s.frame_index + 1) % 2 ∧
      (App.cycle s inp).2.1.swapchain.image_index = none) := by
  have hk : s.frame_index < s.drawn_fences.length :=
    (List.get?_eq_some.mp hfence).choose
  have hf' : s.drawn_fences[s.frame_index]? = some true := by simpa using hfence
  have himg' : s.swapchain.images[inp.acquire_index]? =
      some s.swapchain.images[inp.acquire_index] :=
    List.getElem?_eq_getElem himg
  have hview' : s.swapchain.image_views[inp.acquire_index]? =
      some s.swapchain.image_views[inp.acquire_index] :=
    List.getElem?_eq_getElem hview
  have hfbneg : ¬ (inp.fb_size.1 ≤ 0 ∨ inp.fb_size.2 ≤ 0) := by omega
  have hA : App.acquire_render_target s inp =
      ([FenceEvent.wait s.frame_index, FenceEvent.reset s.frame_index],
       { s with
           framebuffer_size := inp.fb_size
           swapchain :=
             { s.swapchain with image_index := some inp.acquire_index }
           render_target :=
             some { image := s.swapchain.images[inp.acquire_index],
                    image_view := s.swapchain.image_views[inp.acquire_index],
                    extent := s.swapchain.imageExtent }
           drawn_fences := s.drawn_fences.set s.frame_index false },
       Except.ok true) := by
    simp [App.acquire_render_target, if_neg hfbneg, hf',
      Swapchain.acquire_next_image, hacq, himg', hview']
  have hBB : Swapchain.base_barrier
      { s.swapchain with image_index := some inp.acquire_index } =
      Except.ok { image := s.swapchain.images[inp.acquire_index],
                  srcQueueFamilyIndex := s.swapchain.queue_family,
                  dstQueueFamilyIndex := s.swapchain.queue_family } := by
    simp [Swapchain.base_barrier, himg']
  have hSf : (s.drawn_fences.set s.frame_index false)[s.frame_index]? =
      some false := by simp [hk]
  have hSfg : (s.drawn_fences.set s.frame_index false).get? s.frame_index =
      some false := by
    rw [List.get?_eq_getElem?]
    exact hSf
  constructor
  · intro b hb
    simp only [App.cycle, hA, hBB, App.submit_and_present, hSfg,
      Swapchain.present, hb, resource_buffering_v]
    split <;>
      simp [Swapchain.recreate, if_neg hfbneg]
  · intro c hc
    simp only [App.cycle, hA, hBB, App.submit_and_present, hSfg,
      Swapchain.present, hc, needs_recreation, resource_buffering_v]
    simp

/-- Witness for C4: from the sample state at slot 0, a fully successful
cycle ends at slot 1 with no acquired index or render target. -/
theorem full_cycle_round_trip_witness :
    (App.cycle sample_app input_success).2.2 = Except.ok () ∧
    (App.cycle sample_app input_success).2.1.frame_index = (0 + 1) % 2 ∧
    (App.cycle sample_app input_success).2.1.swapchain.image_index = none ∧
    (App.cycle sample_app input_success).2.1.render_target = none :=
  (full_cycle_round_trip sample_app input_success (by decide) (by decide)
    rfl (by decide) (by decide)).1 false rfl

end LearnVulkan
